import Mathlib

/-!
Shallow embedding of the OTP lifecycle of src/js/otp.js (class OTPHandler).

Modelling conventions:
* JS strings holding codes and messages are Lean String values; the phone
  number, whose characters the helpers inspect, is a List Char.
* Timestamps (Date.now, otpExpiry) are Int milliseconds.
* The random draw of generateOTP, Math.floor(Math.random() * 900000), is an
  explicit Nat parameter d; the source then stores (100000 + d).toString().
* The nullable fields generatedOTP and otpExpiry are Option values. The JS
  truthiness test (!this.generatedOTP) is falsy for null and for the empty
  string, and the comparison Date.now() > this.otpExpiry coerces null to 0;
  both coercions are embedded explicitly.
* The repeating interval of startCountdown is modelled as countdownInterval :
  Option Int, holding the timeLeft of the live interval closure (none when no
  live timer). After natural completion the JS field retains a dead handle id,
  but clearInterval on a dead handle is a no-op, so the live-timer view has
  the same observable tick, display and completion behaviour.
* The displayElement sink and the onComplete callback are recorded in a log:
  the list of values assigned to the display, and a completion counter.
-/

/-- Result object returned by verifyOTP: a success flag and a user facing
message string, as in the source. -/
structure VerifyResult where
  success : Bool
  message : String
deriving DecidableEq

/-- Message of the branch with no generated OTP (source line 61). -/
def noOTPMessage : String := "No OTP has been generated. Please request a new OTP."

/-- Message of the expired branch (source line 69). -/
def expiredMessage : String := "OTP has expired. Please request a new OTP."

/-- Message of the successful branch (source line 77). -/
def successMessage : String := "OTP verified successfully!"

/-- Message of the mismatch branch (source line 83). -/
def mismatchMessage : String := "Invalid OTP. Please try again."

/-- The mutable fields of the OTPHandler instance. -/
structure OTPHandler where
  generatedOTP : Option String
  otpExpiry : Option Int
  countdownInterval : Option Int
deriving DecidableEq

/-- The constructor: all fields start as null. -/
def OTPHandler.initial : OTPHandler := ⟨none, none, none⟩

/-- OTPHandler.generateOTP. The draw d models Math.floor(Math.random() *
900000), an integer in the interval from 0 to 899999; the stored code is
(100000 + d).toString() and the expiry is now + 5 minutes in milliseconds.
Returns the code together with the updated state. -/
def generateOTP (d : Nat) (now : Int) (s : OTPHandler) : String × OTPHandler :=
  let otp := Nat.repr (100000 + d)
  (otp, { s with generatedOTP := some otp, otpExpiry := some (now + 5 * 60 * 1000) })

/-- JS truthiness of the nullable string field: null and the empty string are
falsy, every other string is truthy. -/
def strFalsy : Option String → Bool
  | none => true
  | some s => s == ""

/-- OTPHandler.verifyOTP. Returns the result object and the updated state.
The expiry test embeds the JS comparison now > otpExpiry, where a null
otpExpiry coerces to 0. -/
def verifyOTP (enteredOTP : String) (now : Int) (s : OTPHandler) :
    VerifyResult × OTPHandler :=
  if strFalsy s.generatedOTP then
    ({ success := false, message := noOTPMessage }, s)
  else if now > s.otpExpiry.getD 0 then
    ({ success := false, message := expiredMessage }, { s with generatedOTP := none })
  else if some enteredOTP == s.generatedOTP then
    ({ success := true, message := successMessage }, { s with generatedOTP := none })
  else
    ({ success := false, message := mismatchMessage }, s)

/-- OTPHandler.validatePhoneNumber: the regex test of the anchored pattern
of exactly ten characters of the class 0-9. -/
def validatePhoneNumber (phone : List Char) : Bool :=
  phone.length == 10 && phone.all Char.isDigit

/-- OTPHandler.maskPhoneNumber: inputs shorter than 10 pass through; others
become substring(0,3) ++ four asterisks ++ substring(7). -/
def maskPhoneNumber (phone : List Char) : List Char :=
  if phone.length < 10 then phone
  else phone.take 3 ++ ['*', '*', '*', '*'] ++ phone.drop 7

/-- The object sendOTP resolves with on success. -/
structure SendSuccess where
  success : Bool
  message : List Char
  expiresIn : Nat
deriving DecidableEq

/-- The rejection message of sendOTP for an invalid phone number. -/
def invalidPhoneMessage : List Char :=
  "Invalid phone number format. Please enter a 10-digit number.".toList

/-- OTPHandler.sendOTP. The parameter now is the instant at which the
simulated 1500 ms delivery delay elapses and generateOTP runs; on an invalid
phone number the promise rejects immediately and the state is untouched. -/
def sendOTP (phoneNumber : List Char) (d : Nat) (now : Int) (s : OTPHandler) :
    Except (List Char) SendSuccess × OTPHandler :=
  if !(validatePhoneNumber phoneNumber) then
    (Except.error invalidPhoneMessage, s)
  else
    let g := generateOTP d now s
    (Except.ok { success := true,
                 message := "OTP sent to ".toList ++ maskPhoneNumber phoneNumber,
                 expiresIn := 300 }, g.2)

/-- The resendCooldown configuration field (60 seconds). -/
def resendCooldown : Int := 60

/-- Observable countdown effects: the values assigned to the display element
in order, and the number of onComplete invocations. -/
structure CountdownLog where
  display : List Int
  completions : Nat
deriving DecidableEq

/-- The log before any countdown activity. -/
def CountdownLog.empty : CountdownLog := ⟨[], 0⟩

/-- OTPHandler.startCountdown: clears any existing interval, sets the local
timeLeft to resendCooldown, writes it to the display, and arms the interval. -/
def startCountdown (s : OTPHandler) (log : CountdownLog) :
    OTPHandler × CountdownLog :=
  let timeLeft := resendCooldown
  ({ s with countdownInterval := some timeLeft },
   { log with display := log.display ++ [timeLeft] })

/-- One elapsed second. When an interval is live its callback decrements
timeLeft, writes it to the display, and on reaching a value at most 0 clears
the interval and invokes onComplete; with no live interval nothing happens. -/
def countdownTick (p : OTPHandler × CountdownLog) : OTPHandler × CountdownLog :=
  match p.1.countdownInterval with
  | none => p
  | some t =>
    let t1 := t - 1
    if t1 ≤ 0 then
      ({ p.1 with countdownInterval := none },
       { display := p.2.display ++ [t1], completions := p.2.completions + 1 })
    else
      ({ p.1 with countdownInterval := some t1 },
       { p.2 with display := p.2.display ++ [t1] })

/-- OTPHandler.stopCountdown: releases the interval when one is held,
otherwise does nothing. -/
def stopCountdown (s : OTPHandler) : OTPHandler :=
  if s.countdownInterval.isSome then { s with countdownInterval := none } else s

/-- The handler states reachable from the freshly constructed instance by the
operations of the class. -/
inductive Reachable : OTPHandler → Prop where
  | init : Reachable OTPHandler.initial
  | generate (d : Nat) (now : Int) (s : OTPHandler) :
      Reachable s → Reachable (generateOTP d now s).2
  | verify (e : String) (now : Int) (s : OTPHandler) :
      Reachable s → Reachable (verifyOTP e now s).2
  | send (p : List Char) (d : Nat) (now : Int) (s : OTPHandler) :
      Reachable s → Reachable (sendOTP p d now s).2
  | start (s : OTPHandler) (log : CountdownLog) :
      Reachable s → Reachable (startCountdown s log).1
  | tick (s : OTPHandler) (log : CountdownLog) :
      Reachable s → Reachable (countdownTick (s, log)).1
  | stop (s : OTPHandler) : Reachable s → Reachable (stopCountdown s)

/-! Helper lemmas -/

/-- The digit list built by Nat.toDigits is never empty. -/
theorem toDigits_ne_nil (b n : Nat) : Nat.toDigits b n ≠ [] := by
  unfold Nat.toDigits
  simp only [Nat.toDigitsCore]
  split
  · simp
  · intro h
    have hlen := Nat.toDigitsCore_lens_eq b n (n / b) (Nat.digitChar (n % b)) []
    rw [h] at hlen
    simp at hlen

/-- The decimal representation of a natural number is never the empty
string, hence a stored OTP code is always truthy in the JS sense. -/
theorem repr_ne_empty (n : Nat) : Nat.repr n ≠ "" := by
  intro h
  have hd : Nat.toDigits 10 n = [] := by
    have hdata := congrArg String.data h
    simpa [Nat.repr, List.asString] using hdata
  exact toDigits_ne_nil 10 n hd

/-- A tick with no live interval leaves handler and log unchanged. -/
theorem countdownTick_none (p : OTPHandler × CountdownLog)
    (h : p.1.countdownInterval = none) : countdownTick p = p := by
  unfold countdownTick
  rw [h]

/-! Claim theorems -/

/-- Claim C9: for every string of exactly 10 ASCII digits, maskPhoneNumber
returns the first 3 characters, then exactly four asterisk characters, then
the last 3 characters; in particular "0811234567" masks to "081****567". -/
theorem c9_mask_ten_digits (p : List Char) (hlen : p.length = 10)
    (_hdig : p.all Char.isDigit = true) :
    maskPhoneNumber p = p.take 3 ++ ['*', '*', '*', '*'] ++ p.drop 7 ∧
    (p.take 3).length = 3 ∧ (p.drop 7).length = 3 ∧
    maskPhoneNumber "0811234567".toList = "081****567".toList := by
  refine ⟨?_, ?_, ?_, by decide⟩
  · simp [maskPhoneNumber, hlen]
  · simp [List.length_take, hlen]
  · simp [List.length_drop, hlen]

/-- Witness for C9 at the concrete input "0811234567". -/
theorem c9_mask_ten_digits_witness :
    maskPhoneNumber "0811234567".toList =
      "0811234567".toList.take 3 ++ ['*', '*', '*', '*'] ++ "0811234567".toList.drop 7 :=
  (c9_mask_ten_digits "0811234567".toList (by decide) (by decide)).1

/-- Claim C10: every input shorter than 10 characters passes through
maskPhoneNumber completely unchanged. -/
theorem c10_short_input_unchanged (p : List Char) (h : p.length < 10) :
    maskPhoneNumber p = p := by
  simp [maskPhoneNumber, h]

/-- Witness for C10 at the concrete input "081". -/
theorem c10_short_input_unchanged_witness :
    maskPhoneNumber "081".toList = "081".toList :=
  c10_short_input_unchanged "081".toList (by decide)

/-- Claim C5: for every phone string of exactly 10 ASCII digits sendOTP
resolves with success, and for every other string it rejects with the
invalid-format message and leaves the whole handler state untouched. -/
theorem c5_requestCode_contract (p : List Char) (d : Nat) (now : Int) (s : OTPHandler) :
    (p.length = 10 ∧ p.all Char.isDigit = true →
      (sendOTP p d now s).1 =
        Except.ok { success := true,
                    message := "OTP sent to ".toList ++ maskPhoneNumber p,
                    expiresIn := 300 }) ∧
    (¬(p.length = 10 ∧ p.all Char.isDigit = true) →
      (sendOTP p d now s).1 = Except.error invalidPhoneMessage ∧
      (sendOTP p d now s).2 = s) := by
  constructor
  · rintro ⟨h1, h2⟩
    simp [sendOTP, validatePhoneNumber, h1, h2]
  · intro h
    cases hv : validatePhoneNumber p with
    | false => simp [sendOTP, hv]
    | true =>
      exfalso
      apply h
      simpa [validatePhoneNumber] using hv

/-- Witness for C5: a valid and an invalid concrete phone number. -/
theorem c5_requestCode_contract_witness :
    (sendOTP "0811234567".toList 0 0 OTPHandler.initial).1 =
      Except.ok { success := true,
                  message := "OTP sent to ".toList ++ maskPhoneNumber "0811234567".toList,
                  expiresIn := 300 } ∧
    ((sendOTP "08112345".toList 0 0 OTPHandler.initial).1 =
        Except.error invalidPhoneMessage ∧
      (sendOTP "08112345".toList 0 0 OTPHandler.initial).2 = OTPHandler.initial) :=
  ⟨(c5_requestCode_contract "0811234567".toList 0 0 OTPHandler.initial).1 (by decide),
   (c5_requestCode_contract "08112345".toList 0 0 OTPHandler.initial).2 (by decide)⟩

/-- Claim C2: whenever verifyOTP succeeds for a code, an immediately repeated
verifyOTP with the same code at the same clock reading fails with the
no-code-requested message: the code was cleared and cannot be reused. -/
theorem c2_single_use (c : String) (now : Int) (s : OTPHandler)
    (h : (verifyOTP c now s).1.success = true) :
    (verifyOTP c now (verifyOTP c now s).2).1 =
      { success := false, message := noOTPMessage } := by
  by_cases hf : strFalsy s.generatedOTP = true
  · simp [verifyOTP, hf] at h
  · by_cases he : now > s.otpExpiry.getD 0
    · simp [verifyOTP, hf, he] at h
    · by_cases hm : (some c == s.generatedOTP) = true
      · have h2 : (verifyOTP c now s).2 = { s with generatedOTP := none } := by
          simp [verifyOTP, hf, he, hm]
        rw [h2]
        simp [verifyOTP, strFalsy]
      · simp [verifyOTP, hf, he, hm] at h

/-- Witness for C2 in a session that issued the code "100000" at time 0 and
verifies it twice at time 5. -/
theorem c2_single_use_witness :
    (verifyOTP "100000" 5 (verifyOTP "100000" 5 (generateOTP 0 0 OTPHandler.initial).2).2).1 =
      { success := false, message := noOTPMessage } :=
  c2_single_use "100000" 5 (generateOTP 0 0 OTPHandler.initial).2 (by decide)

/-- Claim C6: with a stored code and expiry instant, verifying the correct
code one millisecond before the expiry succeeds and verifying it one
millisecond after the expiry fails with the expiry message. -/
theorem c6_expiry_boundary (c : String) (e : Int) (s : OTPHandler)
    (hc : s.generatedOTP = some c) (hcne : c ≠ "") (he : s.otpExpiry = some e) :
    (verifyOTP c (e - 1) s).1 = { success := true, message := successMessage } ∧
    (verifyOTP c (e + 1) s).1 = { success := false, message := expiredMessage } := by
  have hf : strFalsy (some c) = false := by simp [strFalsy, hcne]
  have hlt : ¬ (e - 1 > e) := by omega
  have hgt : e + 1 > e := by omega
  constructor
  · simp [verifyOTP, hf, he, hc, hlt]
  · simp [verifyOTP, hc, hf, he, hgt]

/-- Witness for C6 with the code "123456" expiring at instant 1000. -/
theorem c6_expiry_boundary_witness :
    (verifyOTP "123456" 999 ⟨some "123456", some 1000, none⟩).1 =
      { success := true, message := successMessage } ∧
    (verifyOTP "123456" 1001 ⟨some "123456", some 1000, none⟩).1 =
      { success := false, message := expiredMessage } :=
  c6_expiry_boundary "123456" 1000 ⟨some "123456", some 1000, none⟩ rfl (by decide) rfl

/-- Claim C7: when the stored code has passed its expiry instant, verifyOTP
with any entered string fails with the expiry message and clears the code, so
every subsequent verifyOTP without a new request fails with the
no-code-requested message. -/
theorem c7_expired_cleanup (c entered : String) (e now : Int) (s : OTPHandler)
    (hc : s.generatedOTP = some c) (hcne : c ≠ "") (he : s.otpExpiry = some e)
    (hnow : now > e) :
    (verifyOTP entered now s).1 = { success := false, message := expiredMessage } ∧
    (verifyOTP entered now s).2.generatedOTP = none ∧
    ∀ (entered2 : String) (now2 : Int),
      (verifyOTP entered2 now2 (verifyOTP entered now s).2).1 =
        { success := false, message := noOTPMessage } := by
  have hf : strFalsy (some c) = false := by simp [strFalsy, hcne]
  refine ⟨?_, ?_, ?_⟩
  · simp [verifyOTP, hc, hf, he, hnow]
  · simp [verifyOTP, hc, hf, he, hnow]
  · intro entered2 now2
    have h2 : (verifyOTP entered now s).2 = { s with generatedOTP := none } := by
      simp [verifyOTP, hc, hf, he, hnow]
    rw [h2]
    simp [verifyOTP, strFalsy]

/-- Witness for C7: code "123456" expired at instant 1000, verified with a
wrong entry at time 2000 and then again at time 3000. -/
theorem c7_expired_cleanup_witness :
    (verifyOTP "000000" 2000 ⟨some "123456", some 1000, none⟩).1 =
      { success := false, message := expiredMessage } ∧
    (verifyOTP "000000" 2000 ⟨some "123456", some 1000, none⟩).2.generatedOTP = none ∧
    ∀ (entered2 : String) (now2 : Int),
      (verifyOTP entered2 now2 (verifyOTP "000000" 2000 ⟨some "123456", some 1000, none⟩).2).1 =
        { success := false, message := noOTPMessage } :=
  c7_expired_cleanup "123456" "000000" 1000 2000 ⟨some "123456", some 1000, none⟩
    rfl (by decide) rfl (by decide)

/-- One direction of the pairing invariant of the session fields: whenever a
code is stored an expiry instant is stored. -/
def codeHasExpiry (s : OTPHandler) : Prop :=
  s.generatedOTP.isSome = true → s.otpExpiry.isSome = true

/-- Claim C1 is false as stated: the state reached by generating a code at
time 0 and verifying it successfully at time 100 is reachable, has no stored
code, and still holds the expiry instant 300000 — exactly one of the two
fields is present, because the success branch clears only the code. -/
theorem c1_counterexample :
    Reachable (verifyOTP "100000" 100 (generateOTP 0 0 OTPHandler.initial).2).2 ∧
    (verifyOTP "100000" 100 (generateOTP 0 0 OTPHandler.initial).2).2.generatedOTP = none ∧
    (verifyOTP "100000" 100 (generateOTP 0 0 OTPHandler.initial).2).2.otpExpiry = some 300000 :=
  ⟨Reachable.verify "100000" 100 (generateOTP 0 0 OTPHandler.initial).2
      (Reachable.generate 0 0 OTPHandler.initial Reachable.init),
   by decide, by decide⟩

/-- Claim C1 (amended): in every reachable session state a stored code is
accompanied by a stored expiry instant (generateOTP sets both together), but
the converse direction fails because verifyOTP on success and on expiry
clears only the code and leaves the stale expiry instant in place. -/
theorem c1_code_implies_expiry (s : OTPHandler) (h : Reachable s) :
    codeHasExpiry s := by
  induction h with
  | init => intro hc; simp [OTPHandler.initial] at hc
  | generate d now s _ _ => intro _; simp [generateOTP]
  | verify e now s _ ih =>
      unfold codeHasExpiry verifyOTP
      split
      · exact ih
      · split
        · intro hc; simp at hc
        · split
          · intro hc; simp at hc
          · exact ih
  | send p d now s _ ih =>
      unfold codeHasExpiry sendOTP
      split
      · exact ih
      · intro _; simp [generateOTP]
  | start s log _ ih => exact ih
  | tick s log _ ih =>
      unfold codeHasExpiry countdownTick
      split
      · exact ih
      · dsimp only
        split
        · exact ih
        · exact ih
  | stop s _ ih =>
      unfold codeHasExpiry stopCountdown
      split
      · exact ih
      · exact ih

/-- Witness for the amended C1 at the reachable state that generated a code
at time 0. -/
theorem c1_code_implies_expiry_witness :
    (generateOTP 0 0 OTPHandler.initial).2.otpExpiry.isSome = true :=
  c1_code_implies_expiry (generateOTP 0 0 OTPHandler.initial).2
    (Reachable.generate 0 0 OTPHandler.initial Reachable.init) (by decide)

/-- Claim C4 is false as stated: when the random source repeats the draw
23456 the two requests issue the same code "123456", and verifying the first
code after the second request succeeds. -/
theorem c4_counterexample :
    (generateOTP 23456 0 OTPHandler.initial).1 = "123456" ∧
    (verifyOTP "123456" 20
      (generateOTP 23456 10 (generateOTP 23456 0 OTPHandler.initial).2).2).1.success = true := by
  constructor
  · decide
  · decide

/-- Claim C4 (amended): whenever the second request issues a code different
from the first, verifying the first code after the second request never
succeeds; within the validity window of the second code it fails with the
mismatch message. -/
theorem c4_overwrite_invalidates (d1 d2 : Nat) (t1 t2 now : Int) (s : OTPHandler)
    (hne : (generateOTP d1 t1 s).1 ≠
      (generateOTP d2 t2 (generateOTP d1 t1 s).2).1) :
    (verifyOTP (generateOTP d1 t1 s).1 now
      (generateOTP d2 t2 (generateOTP d1 t1 s).2).2).1.success = false ∧
    (¬ now > t2 + 5 * 60 * 1000 →
      (verifyOTP (generateOTP d1 t1 s).1 now
        (generateOTP d2 t2 (generateOTP d1 t1 s).2).2).1 =
        { success := false, message := mismatchMessage }) := by
  simp only [generateOTP] at hne ⊢
  have hf : strFalsy (some (Nat.repr (100000 + d2))) = false := by
    simp [strFalsy, repr_ne_empty]
  constructor
  · by_cases hexp : t2 + 300000 < now
    · simp [verifyOTP, hf, hexp]
    · simp [verifyOTP, hf, hexp, hne]
  · intro hexp
    have hexp2 : ¬ (t2 + 300000 < now) := by omega
    simp [verifyOTP, hf, hexp2, hne]

/-- Witness for the amended C4: draws 0 and 1 at times 0 and 0, first code
verified at time 5. -/
theorem c4_overwrite_invalidates_witness :
    (verifyOTP (generateOTP 0 0 OTPHandler.initial).1 5
      (generateOTP 1 0 (generateOTP 0 0 OTPHandler.initial).2).2).1.success = false ∧
    (¬ (5 : Int) > 0 + 5 * 60 * 1000 →
      (verifyOTP (generateOTP 0 0 OTPHandler.initial).1 5
        (generateOTP 1 0 (generateOTP 0 0 OTPHandler.initial).2).2).1 =
        { success := false, message := mismatchMessage }) :=
  c4_overwrite_invalidates 0 1 0 0 5 OTPHandler.initial (by decide)

set_option maxRecDepth 4000 in
/-- Claim C3 is false as stated: over the run that starts the countdown and
advances through the 60 ticks the display sink receives 61 values, because
startCountdown itself first writes the initial value 60; the full trace is
60,59,...,0 and not the claimed 59,...,0. -/
theorem c3_counterexample :
    (Nat.iterate countdownTick 60 (startCountdown OTPHandler.initial CountdownLog.empty)).2.display =
      60 :: ((List.range 60).reverse.map (fun n => (n : Int))) ∧
    (Nat.iterate countdownTick 60 (startCountdown OTPHandler.initial CountdownLog.empty)).2.display ≠
      ((List.range 60).reverse.map (fun n => (n : Int))) := by
  constructor
  · decide
  · decide

set_option maxRecDepth 4000 in
/-- Claim C3 (amended): starting the countdown writes the initial value 60 to
the display sink, the 60 subsequent one-second ticks write exactly the
sequence 59,58,...,1,0 with no value skipped, duplicated or added, onComplete
is invoked exactly once, the timer is released, and further ticks change
nothing. -/
theorem c3_countdown_trace :
    (Nat.iterate countdownTick 60 (startCountdown OTPHandler.initial CountdownLog.empty)).2.display =
      60 :: ((List.range 60).reverse.map (fun n => (n : Int))) ∧
    (Nat.iterate countdownTick 60 (startCountdown OTPHandler.initial CountdownLog.empty)).2.completions = 1 ∧
    (Nat.iterate countdownTick 60 (startCountdown OTPHandler.initial CountdownLog.empty)).1.countdownInterval = none ∧
    Nat.iterate countdownTick 40
        (Nat.iterate countdownTick 60 (startCountdown OTPHandler.initial CountdownLog.empty)) =
      Nat.iterate countdownTick 60 (startCountdown OTPHandler.initial CountdownLog.empty) := by
  refine ⟨by decide, by decide, by decide, by decide⟩

/-- Claim C8: after stopCountdown, any number of further elapsed seconds
leaves the handler, the display trace and the completion count unchanged (no
further sink updates and no onComplete), and stopCountdown with no active
countdown leaves the handler unchanged. -/
theorem c8_cancellation_safety (s : OTPHandler) (log : CountdownLog) (n : Nat) :
    Nat.iterate countdownTick n (stopCountdown s, log) = (stopCountdown s, log) ∧
    (s.countdownInterval = none → stopCountdown s = s) := by
  constructor
  · have hnone : (stopCountdown s).countdownInterval = none := by
      unfold stopCountdown
      split
      · rfl
      · next h => exact Option.not_isSome_iff_eq_none.mp h
    exact Function.iterate_fixed (countdownTick_none (stopCountdown s, log) hnone) n
  · intro h
    unfold stopCountdown
    simp [h]

/-- Witness for C8: a handler with a live timer is stopped and ticked 7
times, and a handler with no timer is stopped. -/
theorem c8_cancellation_safety_witness :
    Nat.iterate countdownTick 7 (stopCountdown ⟨none, none, some 42⟩, CountdownLog.empty) =
      (stopCountdown ⟨none, none, some 42⟩, CountdownLog.empty) ∧
    stopCountdown OTPHandler.initial = OTPHandler.initial :=
  ⟨(c8_cancellation_safety ⟨none, none, some 42⟩ CountdownLog.empty 7).1,
   (c8_cancellation_safety OTPHandler.initial CountdownLog.empty 7).2 rfl⟩
